import Mathlib

/-!
Shallow embedding of the vcluster-argocd-enroller reconciler
(src/vcluster_argocd_enroller/operator.py) and proofs of the spec claims.

Python strings are embedded as Lean strings (sequences of code points);
Python dicts with string keys are embedded as association lists preserving
insertion order; raised exceptions are embedded as the error side of an
Except value; the Kubernetes API responses observed by the handlers are
embedded as explicit outcome values passed in.
-/

namespace VClusterEnroller

/-- Replace the first occurrence of the pattern in the character list,
embedding the semantics of the Python str.replace(old, new, 1) call for a
non-empty pattern. -/
def replaceFirstAux (old new : List Char) : List Char → List Char
  | [] => []
  | c :: rest =>
    if old.isPrefixOf (c :: rest) then new ++ (c :: rest).drop old.length
    else c :: replaceFirstAux old new rest

/-- String front-end of replaceFirstAux. -/
def string_replace_first (s old new : String) : String :=
  ⟨replaceFirstAux old.toList new.toList s.toList⟩

/-- Python str.startswith embedded as a code-point prefix test. -/
def py_startswith (s pre : String) : Bool :=
  pre.toList.isPrefixOf s.toList

/-- Embeds operator.vc_name: extract the vCluster name from a StatefulSet
name by stripping one leading occurrence of "vcluster-". -/
def vc_name (statefulset_name : String) : String :=
  if py_startswith statefulset_name "vcluster-" then
    string_replace_first statefulset_name "vcluster-" ""
  else statefulset_name

/-- Embeds operator.ar_secret_name: the ArgoCD secret name for a vCluster. -/
def ar_secret_name (vcluster_name : String) : String :=
  "vcluster-" ++ vcluster_name

/-- The standard base64 alphabet. -/
def b64Alphabet : List Char :=
  "ABCDEFGHIJKLMNOPQRSTUVWXYZabcdefghijklmnopqrstuvwxyz0123456789+/".toList

/-- Character of the base64 alphabet at the given 6-bit index. -/
def b64Char (n : Nat) : Char := b64Alphabet.getD n 'A'

/-- Base64-encode a byte list (bytes as Nat values below 256), with padding. -/
def b64EncodeList : List Nat → List Char
  | [] => []
  | [a] => [b64Char (a / 4), b64Char (a % 4 * 16), '=', '=']
  | [a, b] => [b64Char (a / 4), b64Char (a % 4 * 16 + b / 16), b64Char (b % 16 * 4), '=']
  | a :: b :: c :: rest =>
    b64Char (a / 4) :: b64Char (a % 4 * 16 + b / 16) ::
      b64Char (b % 16 * 4 + c / 64) :: b64Char (c % 64) :: b64EncodeList rest

/-- Embeds operator.encode: base64 of the UTF-8 bytes of a string. -/
def encode (s : String) : String :=
  ⟨b64EncodeList (s.toUTF8.toList.map (fun b => b.toNat))⟩

/-- Four lowercase hex digits of a value below 65536. -/
def hex4 (n : Nat) : String :=
  let digits := "0123456789abcdef".toList
  ⟨[digits.getD (n / 4096 % 16) '0', digits.getD (n / 256 % 16) '0',
    digits.getD (n / 16 % 16) '0', digits.getD (n % 16) '0']⟩

/-- JSON escape of one character, following the json.dumps default
(ensure_ascii) behaviour: printable ASCII other than quote and backslash is
kept, control characters use the short escapes or a u-escape, and all
non-ASCII code points become u-escapes (surrogate pairs above 0xFFFF). -/
def jsonEscapeChar (c : Char) : String :=
  if c = '"' then "\\\""
  else if c = '\\' then "\\\\"
  else if c = '\x08' then "\\b"
  else if c = '\t' then "\\t"
  else if c = '\n' then "\\n"
  else if c = '\x0c' then "\\f"
  else if c = '\r' then "\\r"
  else if 32 ≤ c.toNat ∧ c.toNat ≤ 126 then String.singleton c
  else if c.toNat < 65536 then "\\u" ++ hex4 c.toNat
  else
    let n := c.toNat - 65536
    "\\u" ++ hex4 (55296 + n / 1024) ++ "\\u" ++ hex4 (56320 + n % 1024)

/-- JSON rendering of a string value, quotes included. -/
def jsonString (s : String) : String :=
  "\"" ++ String.join (s.toList.map jsonEscapeChar) ++ "\""

/-- The json.dumps output for the tlsClientConfig document built by
_build_argocd_secret, with the default separators of json.dumps. -/
def tlsConfigJson (ca cert key : String) : String :=
  "\x7b\"tlsClientConfig\": \x7b\"caData\": " ++ jsonString ca ++
    ", \"certData\": " ++ jsonString cert ++
    ", \"keyData\": " ++ jsonString key ++
    ", \"insecure\": false\x7d\x7d"

/-- The ARGOCD_NAMESPACE module constant at its default configuration
(os.getenv with default "argocd"). -/
def ARGOCD_NAMESPACE : String := "argocd"

/-- Metadata part of the secret body dict built by _build_argocd_secret.
The Python dict key named namespace is embedded as the field ns. -/
structure SecretMetadata where
  name : String
  ns : String
  labels : List (String × String)
  deriving Repr, DecidableEq

/-- The secret body dict built by _build_argocd_secret. -/
structure SecretBody where
  apiVersion : String
  kind : String
  metadata : SecretMetadata
  data : List (String × String)
  deriving Repr, DecidableEq

/-- Python errors raised by the dict lookups inside _build_argocd_secret. -/
inductive BuildError where
  | keyError
  deriving Repr, DecidableEq

/-- The dict literal returned by _build_argocd_secret once the three
credential fields have been looked up successfully. -/
def secretBodyFor (vcluster_name ns : String) (ca cert key : String) : SecretBody :=
  { apiVersion := "v1"
    kind := "Secret"
    metadata :=
      { name := ar_secret_name vcluster_name
        ns := ARGOCD_NAMESPACE
        labels := [("argocd.argoproj.io/secret-type", "cluster"), ("vcluster-operator", "true")] }
    data :=
      [("name", encode vcluster_name),
       ("server", encode ("https://" ++ vcluster_name ++ "." ++ ns ++ ".svc.cluster.local")),
       ("config", encode (tlsConfigJson ca cert key))] }

/-- Embeds operator._build_argocd_secret: build the ArgoCD cluster secret
body from the vCluster credential secret data; a missing field raises
KeyError, embedded as the error side. -/
def _build_argocd_secret (vcluster_name ns : String)
    (vc_secret_data : List (String × String)) : Except BuildError SecretBody :=
  match vc_secret_data.lookup "certificate-authority" with
  | none => .error .keyError
  | some ca =>
    match vc_secret_data.lookup "client-certificate" with
    | none => .error .keyError
    | some cert =>
      match vc_secret_data.lookup "client-key" with
      | none => .error .keyError
      | some key => .ok (secretBodyFor vcluster_name ns ca cert key)

/-- Outcome of the read_namespaced_secret call as observed by the handler:
the secret data on success, an ApiException with its status code and string
rendering, or a non-API exception with its string rendering. -/
inductive ReadOutcome where
  | found (data : List (String × String))
  | apiErr (status : Nat) (msg : String)
  | exc (msg : String)
  deriving Repr, DecidableEq

/-- Outcome of a create_namespaced_secret or replace_namespaced_secret
call: success, or an ApiException with status code and string rendering. -/
inductive MutOutcome where
  | ok
  | apiErr (status : Nat) (msg : String)
  deriving Repr, DecidableEq

/-- Outcome of the delete_namespaced_secret call: success, an ApiException,
or a non-API exception. -/
inductive DeleteOutcome where
  | ok
  | apiErr (status : Nat) (msg : String)
  | exc (msg : String)
  deriving Repr, DecidableEq

/-- Responses of the Kubernetes API for the at most three calls one
enrollment reconciliation makes, in call order. -/
structure StoreResponses where
  read : ReadOutcome
  create : MutOutcome
  replace : MutOutcome
  deriving Repr, DecidableEq

/-- One Kubernetes API call issued by a handler, with its arguments. -/
inductive StoreCall where
  | readSecret (name ns : String)
  | createSecret (ns : String) (body : SecretBody)
  | replaceSecret (name ns : String) (body : SecretBody)
  | deleteSecret (name ns : String)
  deriving Repr, DecidableEq

/-- An error escaping a handler: a raised kopf.TemporaryError with its
delay, a raised kopf.PermanentError, or an exception the handler let
propagate uncaught. -/
inductive RaisedError where
  | temporaryError (msg : String) (delay : Nat)
  | permanentError (msg : String)
  | apiException (status : Nat) (msg : String)
  deriving Repr, DecidableEq

/-- A handler return value: the Success status dict, the Failed status dict
with its message, or the implicit Python None return. -/
inductive HandlerResult where
  | success
  | failed (message : String)
  | noResult
  deriving Repr, DecidableEq

/-- Embeds operator.handle_vcluster_enrollment: create or update the ArgoCD
cluster secret for a vCluster. Returns the handler outcome together with
the list of Kubernetes API calls it issued, in order. -/
def handle_vcluster_enrollment (statefulset_name ns : String)
    (store : StoreResponses) : Except RaisedError HandlerResult × List StoreCall :=
  let vcluster_name := vc_name statefulset_name
  let vcluster_secret_name := "vc-" ++ vcluster_name
  let readCall := StoreCall.readSecret vcluster_secret_name ns
  match store.read with
  | .apiErr _ msg =>
    (.error (.temporaryError
        ("Failed to read vcluster secret " ++ ns ++ "/" ++ vcluster_secret_name ++ ": " ++ msg) 60),
      [readCall])
  | .exc msg =>
    (.error (.permanentError ("Failed to read vcluster secret: " ++ msg)), [readCall])
  | .found vc_secret_data =>
    match _build_argocd_secret vcluster_name ns vc_secret_data with
    | .error _ =>
      (.error (.permanentError
          ("Failed to parse vcluster secret: " ++ ns ++ "/" ++ vcluster_secret_name)),
        [readCall])
    | .ok secret_body =>
      let argocd_secret_name := ar_secret_name vcluster_name
      let createCall := StoreCall.createSecret ARGOCD_NAMESPACE secret_body
      match store.create with
      | .ok => (.ok .success, [readCall, createCall])
      | .apiErr status msg =>
        if status = 409 then
          let replaceCall := StoreCall.replaceSecret argocd_secret_name ARGOCD_NAMESPACE secret_body
          match store.replace with
          | .ok => (.ok .success, [readCall, createCall, replaceCall])
          | .apiErr rstatus rmsg =>
            (.error (.apiException rstatus rmsg), [readCall, createCall, replaceCall])
        else
          (.error (.temporaryError ("Failed to create ArgoCD secret: " ++ msg) 60),
            [readCall, createCall])

/-- Embeds operator.vcluster_deleted: handle vCluster StatefulSet deletion
by deleting the ArgoCD cluster secret. On an ApiException with status 404
the except branch only logs, so the function falls through and returns
Python None; every other exception branch returns the Failed dict. -/
def vcluster_deleted (name _ns : String)
    (store_delete : DeleteOutcome) : Except RaisedError HandlerResult × List StoreCall :=
  let vcluster_name := vc_name name
  let argocd_secret_name := ar_secret_name vcluster_name
  let deleteCall := StoreCall.deleteSecret argocd_secret_name ARGOCD_NAMESPACE
  match store_delete with
  | .ok => (.ok .success, [deleteCall])
  | .apiErr status msg =>
    if status = 404 then (.ok .noResult, [deleteCall])
    else (.ok (.failed msg), [deleteCall])
  | .exc msg => (.ok (.failed msg), [deleteCall])

/-- Number of create calls in a call trace. -/
def countCreates (trace : List StoreCall) : Nat :=
  trace.countP fun c => match c with | .createSecret _ _ => true | _ => false

/-- Number of replace calls in a call trace. -/
def countReplaces (trace : List StoreCall) : Nat :=
  trace.countP fun c => match c with | .replaceSecret _ _ _ => true | _ => false

/-!
Store-state model. Modelled from the spec: the Cluster Resource Store
collaborator (a key-value store of namespaced secrets supporting
get/create/replace/delete with not-found and conflict outcomes). For one
reconciliation only two slots matter: the CredentialSecret the handler
reads and the RegistrationSecret it owns.
-/

/-- The two store slots one reconciliation touches: the credential secret
contents (if present) and the registration secret body (if present). -/
structure Store where
  credential : Option (List (String × String))
  registration : Option SecretBody
  deriving Repr, DecidableEq

/-- Responses the store produces for one enrollment reconciliation, per
the store contract: a read of an absent object is not-found (404), a
create of a present object is a conflict (409), a replace of a present
object succeeds, a replace of an absent object is not-found (404). -/
def storeResponses (s : Store) : StoreResponses :=
  { read := match s.credential with
      | some data => .found data
      | none => .apiErr 404 "Not Found"
    create := match s.registration with
      | some _ => .apiErr 409 "Conflict"
      | none => .ok
    replace := match s.registration with
      | some _ => .ok
      | none => .apiErr 404 "Not Found" }

/-- Effect of one issued call on the store state, per the store contract:
create writes the body only when the slot is empty, replace writes it only
when the slot is occupied, delete empties the slot. -/
def applyCall (s : Store) : StoreCall → Store
  | .readSecret _ _ => s
  | .createSecret _ body =>
    match s.registration with
    | some _ => s
    | none => { s with registration := some body }
  | .replaceSecret _ _ body =>
    match s.registration with
    | some _ => { s with registration := some body }
    | none => s
  | .deleteSecret _ _ => { s with registration := none }

/-- One enrollment reconciliation run against a store state: the handler
observes the responses the state determines and its issued calls update
the state. -/
def runEnrollment (statefulset_name ns : String) (s : Store) :
    Except RaisedError HandlerResult × Store :=
  let out := handle_vcluster_enrollment statefulset_name ns (storeResponses s)
  (out.1, out.2.foldl applyCall s)

/-- Tests whether a handler outcome is a raised TemporaryError with delay
60, the shape the spec calls RetryableError with delay 60. -/
def raisesRetryableDelay60 (out : Except RaisedError HandlerResult) : Bool :=
  match out with
  | .error (.temporaryError _ 60) => true
  | _ => false

/-- Replacing the first occurrence in a list that starts with the non-empty
pattern replaces exactly that leading occurrence. -/
theorem replaceFirstAux_append (old new t : List Char) (h : old ≠ []) :
    replaceFirstAux old new (old ++ t) = new ++ t := by
  cases old with
  | nil => exact absurd rfl h
  | cons c cs =>
    have hp : (c :: cs).isPrefixOf (c :: (cs ++ t)) = true :=
      List.isPrefixOf_iff_prefix.mpr ⟨t, rfl⟩
    show replaceFirstAux (c :: cs) new (c :: (cs ++ t)) = new ++ t
    simp only [replaceFirstAux, hp, if_true]
    simp [List.drop_left]

/-- C8: deriveVClusterIdentity (vc_name) is total; it returns any string
not starting with "vcluster-" unchanged, and strips exactly the one
leftmost occurrence of the prefix from "vcluster-" ++ s, yielding s. -/
theorem vc_name_spec (s : String) :
    (py_startswith s "vcluster-" = false → vc_name s = s) ∧
    vc_name ("vcluster-" ++ s) = s := by
  constructor
  · intro h
    simp [vc_name, h]
  · have hpre : py_startswith ("vcluster-" ++ s) "vcluster-" = true := by
      show ("vcluster-".toList).isPrefixOf (("vcluster-" ++ s).toList) = true
      rw [show (("vcluster-" ++ s).toList) = "vcluster-".toList ++ s.toList from rfl]
      exact List.isPrefixOf_iff_prefix.mpr (List.prefix_append _ _)
    simp only [vc_name, hpre, if_true, string_replace_first]
    rw [show (("vcluster-" ++ s).toList) = "vcluster-".toList ++ s.toList from rfl,
      replaceFirstAux_append _ _ _ (by decide)]
    rfl

/-- Witness for C8 at the concrete inputs "my-cluster" and
"vcluster-" ++ "my-cluster". -/
theorem vc_name_spec_witness :
    vc_name "my-cluster" = "my-cluster" ∧ vc_name ("vcluster-" ++ "my-cluster") = "my-cluster" :=
  ⟨(vc_name_spec "my-cluster").1 (by decide), (vc_name_spec "my-cluster").2⟩

/-- C5 counterexample: a store-communication failure on the credential
read that is not an ApiException — the store unreachable at connection
level, landing in the except-Exception branch — does not produce a
TemporaryError with delay 60: the handler raises PermanentError. No
create or replace is attempted. -/
theorem read_exception_not_retryable_cex :
    raisesRetryableDelay60 (handle_vcluster_enrollment "test-cluster" "vcluster-test"
        ⟨.exc "Connection refused", .ok, .ok⟩).1 = false ∧
    (handle_vcluster_enrollment "test-cluster" "vcluster-test"
        ⟨.exc "Connection refused", .ok, .ok⟩).1 =
      .error (.permanentError ("Failed to read vcluster secret: " ++ "Connection refused")) ∧
    countCreates (handle_vcluster_enrollment "test-cluster" "vcluster-test"
        ⟨.exc "Connection refused", .ok, .ok⟩).2 = 0 ∧
    countReplaces (handle_vcluster_enrollment "test-cluster" "vcluster-test"
        ⟨.exc "Connection refused", .ok, .ok⟩).2 = 0 :=
  ⟨rfl, rfl, rfl, rfl⟩

/-- C5 amended: a credential read failing with an ApiException of any
status (not-found included) raises TemporaryError with delay 60, while a
read failure that is not an ApiException raises PermanentError instead;
in both cases the trace holds only the read call, so no create or replace
of the RegistrationSecret is attempted. -/
theorem enrollment_read_failure_classified (sname ns : String) (status : Nat) (msg : String)
    (c r : MutOutcome) :
    handle_vcluster_enrollment sname ns ⟨.apiErr status msg, c, r⟩ =
      (.error (.temporaryError
          ("Failed to read vcluster secret " ++ ns ++ "/" ++ ("vc-" ++ vc_name sname)
            ++ ": " ++ msg) 60),
        [.readSecret ("vc-" ++ vc_name sname) ns]) ∧
    handle_vcluster_enrollment sname ns ⟨.exc msg, c, r⟩ =
      (.error (.permanentError ("Failed to read vcluster secret: " ++ msg)),
        [.readSecret ("vc-" ++ vc_name sname) ns]) ∧
    countCreates (handle_vcluster_enrollment sname ns ⟨.apiErr status msg, c, r⟩).2 = 0 ∧
    countReplaces (handle_vcluster_enrollment sname ns ⟨.apiErr status msg, c, r⟩).2 = 0 ∧
    countCreates (handle_vcluster_enrollment sname ns ⟨.exc msg, c, r⟩).2 = 0 ∧
    countReplaces (handle_vcluster_enrollment sname ns ⟨.exc msg, c, r⟩).2 = 0 :=
  ⟨rfl, rfl, rfl, rfl, rfl, rfl⟩

/-- C1 counterexample: on a not-found (404) delete the removal handler
returns Python None (no result dict), not the Success result the claim
states; no error is raised. -/
theorem removal_not_found_returns_none_cex :
    (vcluster_deleted "test-cluster" "vcluster-test" (.apiErr 404 "Not Found")).1
        = .ok .noResult ∧
    (vcluster_deleted "test-cluster" "vcluster-test" (.apiErr 404 "Not Found")).1
        ≠ .ok .success := by
  exact ⟨rfl, by simp [vcluster_deleted]⟩

/-- C1 amended: on a not-found (404) delete the removal handler raises no
error and returns no result value (Python None): the except branch only
logs and the function falls through. -/
theorem removal_not_found_no_result (name ns msg : String) :
    vcluster_deleted name ns (.apiErr 404 msg) =
      (.ok .noResult, [.deleteSecret (ar_secret_name (vc_name name)) ARGOCD_NAMESPACE]) := by
  rfl

/-- C9: on any delete failure other than not-found — an ApiException with
status other than 404, or a non-API exception — the removal handler
returns the Failed result carrying the error message as a normal value,
raising nothing. -/
theorem removal_other_error_soft_failed (name ns : String) (status : Nat) (msg : String)
    (h : status ≠ 404) :
    vcluster_deleted name ns (.apiErr status msg) =
      (.ok (.failed msg), [.deleteSecret (ar_secret_name (vc_name name)) ARGOCD_NAMESPACE]) ∧
    vcluster_deleted name ns (.exc msg) =
      (.ok (.failed msg), [.deleteSecret (ar_secret_name (vc_name name)) ARGOCD_NAMESPACE]) := by
  constructor
  · simp [vcluster_deleted, h]
  · rfl

/-- Witness for C9 at status 503. -/
theorem removal_other_error_soft_failed_witness :
    vcluster_deleted "test-cluster" "vcluster-test" (.apiErr 503 "Service Unavailable") =
      (.ok (.failed "Service Unavailable"),
        [.deleteSecret (ar_secret_name (vc_name "test-cluster")) ARGOCD_NAMESPACE]) ∧
    vcluster_deleted "test-cluster" "vcluster-test" (.exc "Service Unavailable") =
      (.ok (.failed "Service Unavailable"),
        [.deleteSecret (ar_secret_name (vc_name "test-cluster")) ARGOCD_NAMESPACE]) :=
  removal_other_error_soft_failed "test-cluster" "vcluster-test" 503 "Service Unavailable"
    (by decide)

/-- C10: the removal handler raises nothing for any delete outcome — every
exception class from the delete call is caught and turned into a returned
value. -/
theorem removal_never_raises (name ns : String) (o : DeleteOutcome) :
    ∃ res, (vcluster_deleted name ns o).1 = .ok res := by
  cases o with
  | ok => exact ⟨.success, rfl⟩
  | apiErr status msg =>
    by_cases h : status = 404
    · exact ⟨.noResult, by simp [vcluster_deleted, h]⟩
    · exact ⟨.failed msg, by simp [vcluster_deleted, h]⟩
  | exc msg => exact ⟨.failed msg, rfl⟩

/-- C6: when the credential data misses any of the three required fields,
building the body fails with KeyError, the enrollment handler raises
PermanentError (kopf's fatal, non-retried error), and the trace holds only
the read call: no create or replace is issued. -/
theorem malformed_credential_fatal_no_mutation (sname ns : String)
    (data : List (String × String)) (c r : MutOutcome)
    (h : data.lookup "certificate-authority" = none ∨
      data.lookup "client-certificate" = none ∨ data.lookup "client-key" = none) :
    _build_argocd_secret (vc_name sname) ns data = .error .keyError ∧
    handle_vcluster_enrollment sname ns ⟨.found data, c, r⟩ =
      (.error (.permanentError
          ("Failed to parse vcluster secret: " ++ ns ++ "/" ++ ("vc-" ++ vc_name sname))),
        [.readSecret ("vc-" ++ vc_name sname) ns]) ∧
    countCreates (handle_vcluster_enrollment sname ns ⟨.found data, c, r⟩).2 = 0 ∧
    countReplaces (handle_vcluster_enrollment sname ns ⟨.found data, c, r⟩).2 = 0 := by
  have hb : _build_argocd_secret (vc_name sname) ns data = .error .keyError := by
    rcases h with h | h | h
    · simp [_build_argocd_secret, h]
    · cases h1 : data.lookup "certificate-authority" with
      | none => simp [_build_argocd_secret, h1]
      | some a => simp [_build_argocd_secret, h1, h]
    · cases h1 : data.lookup "certificate-authority" with
      | none => simp [_build_argocd_secret, h1]
      | some a =>
        cases h2 : data.lookup "client-certificate" with
        | none => simp [_build_argocd_secret, h1, h2]
        | some b => simp [_build_argocd_secret, h1, h2, h]
  refine ⟨hb, ?_, ?_, ?_⟩ <;>
    simp [handle_vcluster_enrollment, hb, countCreates, countReplaces]

/-- Witness for C6 with a credential holding none of the required fields. -/
theorem malformed_credential_fatal_no_mutation_witness :
    _build_argocd_secret (vc_name "test-cluster") "vcluster-test" [("some-field", "value")]
        = .error .keyError ∧
    handle_vcluster_enrollment "test-cluster" "vcluster-test"
        ⟨.found [("some-field", "value")], .ok, .ok⟩ =
      (.error (.permanentError
          ("Failed to parse vcluster secret: " ++ "vcluster-test" ++ "/"
            ++ ("vc-" ++ vc_name "test-cluster"))),
        [.readSecret ("vc-" ++ vc_name "test-cluster") "vcluster-test"]) ∧
    countCreates (handle_vcluster_enrollment "test-cluster" "vcluster-test"
        ⟨.found [("some-field", "value")], .ok, .ok⟩).2 = 0 ∧
    countReplaces (handle_vcluster_enrollment "test-cluster" "vcluster-test"
        ⟨.found [("some-field", "value")], .ok, .ok⟩).2 = 0 :=
  malformed_credential_fatal_no_mutation "test-cluster" "vcluster-test"
    [("some-field", "value")] .ok .ok (Or.inl rfl)

/-- C7: with the three credential fields present, the built body carries
exactly the two fixed labels, data.name is base64 of the identity,
data.server is base64 of the in-cluster service URL, and data.config is
base64 of the tlsClientConfig JSON document holding the three credential
values verbatim with insecure false. -/
theorem build_registration_secret_fields (id ns ca cert key : String)
    (data : List (String × String)) (body : SecretBody)
    (h1 : data.lookup "certificate-authority" = some ca)
    (h2 : data.lookup "client-certificate" = some cert)
    (h3 : data.lookup "client-key" = some key)
    (hbody : _build_argocd_secret id ns data = .ok body) :
    body.metadata.labels =
      [("argocd.argoproj.io/secret-type", "cluster"), ("vcluster-operator", "true")] ∧
    body.data =
      [("name", encode id),
       ("server", encode ("https://" ++ id ++ "." ++ ns ++ ".svc.cluster.local")),
       ("config", encode (tlsConfigJson ca cert key))] := by
  simp only [_build_argocd_secret, h1, h2, h3, Except.ok.injEq] at hbody
  subst hbody
  exact ⟨rfl, rfl⟩

/-- Witness for C7 at a concrete credential secret. -/
theorem build_registration_secret_fields_witness :
    (secretBodyFor "test-cluster" "vcluster-test" "Q0E=" "Q0VSVA==" "S0VZ").metadata.labels =
      [("argocd.argoproj.io/secret-type", "cluster"), ("vcluster-operator", "true")] ∧
    (secretBodyFor "test-cluster" "vcluster-test" "Q0E=" "Q0VSVA==" "S0VZ").data =
      [("name", encode "test-cluster"),
       ("server", encode ("https://" ++ "test-cluster" ++ "." ++ "vcluster-test"
          ++ ".svc.cluster.local")),
       ("config", encode (tlsConfigJson "Q0E=" "Q0VSVA==" "S0VZ"))] :=
  build_registration_secret_fields "test-cluster" "vcluster-test" "Q0E=" "Q0VSVA==" "S0VZ"
    [("certificate-authority", "Q0E="), ("client-certificate", "Q0VSVA=="),
     ("client-key", "S0VZ")]
    (secretBodyFor "test-cluster" "vcluster-test" "Q0E=" "Q0VSVA==" "S0VZ")
    rfl rfl rfl rfl

/-- C4: when the RegistrationSecret already exists so the create fails with
conflict (409) and the replace succeeds, the handler returns Success; the
trace shows the read, exactly one create, then exactly one replace of the
existing object with the newly built body. -/
theorem enrollment_conflict_replaces_once (sname ns ca cert key msg : String)
    (data : List (String × String))
    (h1 : data.lookup "certificate-authority" = some ca)
    (h2 : data.lookup "client-certificate" = some cert)
    (h3 : data.lookup "client-key" = some key) :
    handle_vcluster_enrollment sname ns ⟨.found data, .apiErr 409 msg, .ok⟩ =
      (.ok .success,
        [.readSecret ("vc-" ++ vc_name sname) ns,
         .createSecret ARGOCD_NAMESPACE (secretBodyFor (vc_name sname) ns ca cert key),
         .replaceSecret (ar_secret_name (vc_name sname)) ARGOCD_NAMESPACE
           (secretBodyFor (vc_name sname) ns ca cert key)]) ∧
    countCreates (handle_vcluster_enrollment sname ns ⟨.found data, .apiErr 409 msg, .ok⟩).2
        = 1 ∧
    countReplaces (handle_vcluster_enrollment sname ns ⟨.found data, .apiErr 409 msg, .ok⟩).2
        = 1 := by
  have hb : _build_argocd_secret (vc_name sname) ns data =
      .ok (secretBodyFor (vc_name sname) ns ca cert key) := by
    simp [_build_argocd_secret, h1, h2, h3]
  refine ⟨?_, ?_, ?_⟩ <;>
    simp [handle_vcluster_enrollment, hb, countCreates, countReplaces]

/-- Witness for C4 at a concrete credential secret. -/
theorem enrollment_conflict_replaces_once_witness :
    handle_vcluster_enrollment "test-cluster" "vcluster-test"
        ⟨.found [("certificate-authority", "Q0E="), ("client-certificate", "Q0VSVA=="),
            ("client-key", "S0VZ")], .apiErr 409 "Conflict", .ok⟩ =
      (.ok .success,
        [.readSecret ("vc-" ++ vc_name "test-cluster") "vcluster-test",
         .createSecret ARGOCD_NAMESPACE
           (secretBodyFor (vc_name "test-cluster") "vcluster-test" "Q0E=" "Q0VSVA==" "S0VZ"),
         .replaceSecret (ar_secret_name (vc_name "test-cluster")) ARGOCD_NAMESPACE
           (secretBodyFor (vc_name "test-cluster") "vcluster-test" "Q0E=" "Q0VSVA==" "S0VZ")]) ∧
    countCreates (handle_vcluster_enrollment "test-cluster" "vcluster-test"
        ⟨.found [("certificate-authority", "Q0E="), ("client-certificate", "Q0VSVA=="),
            ("client-key", "S0VZ")], .apiErr 409 "Conflict", .ok⟩).2 = 1 ∧
    countReplaces (handle_vcluster_enrollment "test-cluster" "vcluster-test"
        ⟨.found [("certificate-authority", "Q0E="), ("client-certificate", "Q0VSVA=="),
            ("client-key", "S0VZ")], .apiErr 409 "Conflict", .ok⟩).2 = 1 :=
  enrollment_conflict_replaces_once "test-cluster" "vcluster-test" "Q0E=" "Q0VSVA==" "S0VZ"
    "Conflict"
    [("certificate-authority", "Q0E="), ("client-certificate", "Q0VSVA=="),
     ("client-key", "S0VZ")]
    rfl rfl rfl

/-- C2 counterexample: with a conflict on create and a failing replace
(status 503), the enrollment handler does not fail with a TemporaryError
of delay 60; it lets the replace ApiException propagate uncaught, since
the replace call sits inside the except branch with no handler around it. -/
theorem replace_failure_not_retryable_cex :
    raisesRetryableDelay60 (handle_vcluster_enrollment "test-cluster" "vcluster-test"
        ⟨.found [("certificate-authority", "Q0E="), ("client-certificate", "Q0VSVA=="),
            ("client-key", "S0VZ")], .apiErr 409 "Conflict",
          .apiErr 503 "Service Unavailable"⟩).1 = false ∧
    (handle_vcluster_enrollment "test-cluster" "vcluster-test"
        ⟨.found [("certificate-authority", "Q0E="), ("client-certificate", "Q0VSVA=="),
            ("client-key", "S0VZ")], .apiErr 409 "Conflict",
          .apiErr 503 "Service Unavailable"⟩).1 =
      .error (.apiException 503 "Service Unavailable") :=
  ⟨rfl, rfl⟩

/-- C2 amended: when the create fails with conflict (409) and the
subsequent replace also fails with a store ApiException, the handler
propagates that ApiException uncaught, with its status and message
preserved; it is not converted into a TemporaryError with delay 60. -/
theorem replace_failure_propagates_api_exception (sname ns ca cert key msg rmsg : String)
    (rstatus : Nat) (data : List (String × String))
    (h1 : data.lookup "certificate-authority" = some ca)
    (h2 : data.lookup "client-certificate" = some cert)
    (h3 : data.lookup "client-key" = some key) :
    handle_vcluster_enrollment sname ns
        ⟨.found data, .apiErr 409 msg, .apiErr rstatus rmsg⟩ =
      (.error (.apiException rstatus rmsg),
        [.readSecret ("vc-" ++ vc_name sname) ns,
         .createSecret ARGOCD_NAMESPACE (secretBodyFor (vc_name sname) ns ca cert key),
         .replaceSecret (ar_secret_name (vc_name sname)) ARGOCD_NAMESPACE
           (secretBodyFor (vc_name sname) ns ca cert key)]) := by
  have hb : _build_argocd_secret (vc_name sname) ns data =
      .ok (secretBodyFor (vc_name sname) ns ca cert key) := by
    simp [_build_argocd_secret, h1, h2, h3]
  simp [handle_vcluster_enrollment, hb]

/-- Witness for the amended C2 at a concrete credential secret and a 503
replace failure. -/
theorem replace_failure_propagates_api_exception_witness :
    handle_vcluster_enrollment "test-cluster" "vcluster-test"
        ⟨.found [("certificate-authority", "Q0E="), ("client-certificate", "Q0VSVA=="),
            ("client-key", "S0VZ")], .apiErr 409 "Conflict",
          .apiErr 500 "Internal Server Error"⟩ =
      (.error (.apiException 500 "Internal Server Error"),
        [.readSecret ("vc-" ++ vc_name "test-cluster") "vcluster-test",
         .createSecret ARGOCD_NAMESPACE
           (secretBodyFor (vc_name "test-cluster") "vcluster-test" "Q0E=" "Q0VSVA==" "S0VZ"),
         .replaceSecret (ar_secret_name (vc_name "test-cluster")) ARGOCD_NAMESPACE
           (secretBodyFor (vc_name "test-cluster") "vcluster-test" "Q0E=" "Q0VSVA==" "S0VZ")]) :=
  replace_failure_propagates_api_exception "test-cluster" "vcluster-test" "Q0E=" "Q0VSVA=="
    "S0VZ" "Conflict" "Internal Server Error" 500
    [("certificate-authority", "Q0E="), ("client-certificate", "Q0VSVA=="),
     ("client-key", "S0VZ")]
    rfl rfl rfl

/-- A run whose credential read misses (slot empty) leaves the store
unchanged. -/
theorem runEnrollment_credential_none (sname ns : String) (s : Store)
    (hc : s.credential = none) : (runEnrollment sname ns s).2 = s := by
  simp [runEnrollment, handle_vcluster_enrollment, storeResponses, hc, applyCall]

/-- A run whose body build fails leaves the store unchanged. -/
theorem runEnrollment_build_error (sname ns : String) (s : Store)
    (c : List (String × String)) (e : BuildError)
    (hc : s.credential = some c)
    (hb : _build_argocd_secret (vc_name sname) ns c = .error e) :
    (runEnrollment sname ns s).2 = s := by
  simp [runEnrollment, handle_vcluster_enrollment, storeResponses, hc, hb, applyCall]

/-- A run whose body build succeeds ends with exactly that body stored in
the registration slot, whether it got there by create or by
conflict-then-replace, and the credential slot untouched. -/
theorem runEnrollment_build_ok (sname ns : String) (s : Store)
    (c : List (String × String)) (body : SecretBody)
    (hc : s.credential = some c)
    (hb : _build_argocd_secret (vc_name sname) ns c = .ok body) :
    (runEnrollment sname ns s).2 = { s with registration := some body } := by
  cases hr : s.registration with
  | none =>
    simp [runEnrollment, handle_vcluster_enrollment, storeResponses, hc, hb, hr, applyCall]
  | some old =>
    simp [runEnrollment, handle_vcluster_enrollment, storeResponses, hc, hb, hr, applyCall]

/-- C3: re-running enrollment reconciliation against the store left by a
previous run of the same inputs changes nothing observable: the
registration slot after the second run equals the slot after the first
(idempotent upsert; the handler never writes the credential slot, so the
input triple is unchanged between the runs). -/
theorem enrollment_idempotent_registration (sname ns : String) (s : Store) :
    ((runEnrollment sname ns (runEnrollment sname ns s).2).2).registration =
      ((runEnrollment sname ns s).2).registration := by
  cases hc : s.credential with
  | none => simp only [runEnrollment_credential_none sname ns s hc]
  | some c =>
    cases hb : _build_argocd_secret (vc_name sname) ns c with
    | error e => simp only [runEnrollment_build_error sname ns s c e hc hb]
    | ok body =>
      have h1 : (runEnrollment sname ns s).2 = { s with registration := some body } :=
        runEnrollment_build_ok sname ns s c body hc hb
      have hc1 : ({ s with registration := some body } : Store).credential = some c := hc
      have h2 : (runEnrollment sname ns { s with registration := some body }).2 =
          { s with registration := some body } :=
        runEnrollment_build_ok sname ns { s with registration := some body } c body hc1 hb
      rw [h1, h2]

end VClusterEnroller
